import Mathlib

/-!
Verification of the visit-report server (`src/server.js`): a shallow embedding
of its report pipeline — the 24-hour recency filter, the date sort, the three
renderers (HTML table, spreadsheet rows, chat message), the chat chunking
sender, the daily job and the `/send-report` handler — together with theorems
about the properties the specification states for them.

Modelling conventions:
* JavaScript strings are Lean `String`s; `String.prototype.length` (UTF-16
  code units) is `utf16Len`; astral-plane characters such as the emoji used in
  the report headers count 2 there.
* Timestamps (`Date` values) are `Int` milliseconds; a missing timestamp is
  `none`.
* The current instant (`new Date()`) and the rendered generation timestamp
  (`new Date().toLocaleString("en-IN")`) are passed in as parameters `now`
  and `g`.
* Outbound sends (nodemailer, Twilio) are an environment of `Except`-valued
  oracles; each dispatched send is recorded in a trace of `Action`s so that
  "no send was attempted" is a statement about the trace.
-/

set_option maxRecDepth 1000000

namespace VisitPortal

/-- UTF-16 length of one character: astral-plane code points take two code
units, everything else one. -/
def charW (c : Char) : Nat := if c.toNat < 65536 then 1 else 2

/-- The JavaScript `String.prototype.length` of a Lean string: the number of
UTF-16 code units. -/
def utf16Len (s : String) : Nat := (s.data.map charW).sum

theorem utf16Len_append (a b : String) :
    utf16Len (a ++ b) = utf16Len a + utf16Len b := by
  simp [utf16Len, String.data_append]

/-- Concatenation of a list of strings (no separator). -/
def sjoin : List String → String
  | [] => ""
  | s :: rest => s ++ sjoin rest

theorem sjoin_append (l₁ l₂ : List String) :
    sjoin (l₁ ++ l₂) = sjoin l₁ ++ sjoin l₂ := by
  induction l₁ with
  | nil => simp [sjoin]
  | cons s rest ih => simp [sjoin, ih, String.append_assoc]

theorem sjoin_concat (l : List String) (s : String) :
    sjoin (l ++ [s]) = sjoin l ++ s := by
  rw [sjoin_append]; simp [sjoin]

/-- One normalized visit row (the post-fetch `VisitRecord`): every displayed
field has a string fallback, and the raw timestamp is kept only for
filtering/sorting. -/
structure Visit where
  visitorName : String
  contactNumber : String
  visitDate : String
  visitTime : String
  channelPartner : String
  propertyTypes : String
  remark : String
  status : String
  visitTimestamp : Option Int
deriving DecidableEq, Repr

/-- The eight rendered field values of a row, in the order every renderer
displays them.  `visitTimestamp` is deliberately not part of this tuple: it is
never rendered. -/
def fieldTuple (v : Visit) : List String :=
  [v.visitorName, v.contactNumber, v.visitDate, v.visitTime,
   v.channelPartner, v.propertyTypes, v.remark, v.status]

/-! ## Recency filter (`filterLast24Hours`, src/server.js lines 58–67)

The source computes `twentyFourHoursAgo = now - 24*60*60*1000` and keeps a row
iff it has a timestamp and `visitDate >= twentyFourHoursAgo`.  There is no
comparison against `now` itself. -/

/-- Milliseconds in 24 hours, as in `24 * 60 * 60 * 1000`. -/
def twentyFourHoursMs : Int := 24 * 60 * 60 * 1000

/-- `filterLast24Hours` from the source: keep rows with a timestamp at least
`now - 24h`; rows without a timestamp are dropped. -/
def filterLast24Hours (now : Int) (rows : List Visit) : List Visit :=
  rows.filter fun row =>
    match row.visitTimestamp with
    | none => false
    | some t => decide (now - twentyFourHoursMs ≤ t)

/-- The predicate the filter actually enforces: a present timestamp that is at
least 24 hours before `now` — with no upper bound. -/
def inFilterWindow (now : Int) (row : Visit) : Bool :=
  match row.visitTimestamp with
  | none => false
  | some t => decide (now - twentyFourHoursMs ≤ t)

/-- Modelled from the spec wording for the recency filter: rows whose
timestamp lies in the closed interval `[now - 24h, now]`. -/
def specWindowFilter (now : Int) (rows : List Visit) : List Visit :=
  rows.filter fun row =>
    match row.visitTimestamp with
    | none => false
    | some t => decide (now - twentyFourHoursMs ≤ t ∧ t ≤ now)

/-! ## Date sort (`sortVisitsByDate`, src/server.js lines 72–92) -/

/-- `String.prototype.split(sep)` on character lists: splits at every
occurrence of the separator, keeping empty pieces, and yields `[input]` when
the separator does not occur. -/
def splitOnChar (sep : Char) : List Char → List Char → List (List Char)
  | [], acc => [acc.reverse]
  | c :: cs, acc =>
    if c = sep then acc.reverse :: splitOnChar sep cs []
    else splitOnChar sep cs (c :: acc)

/-- A run of decimal digits read as a number; `none` if empty or not all
digits. -/
def digitsToNat (cs : List Char) : Option Nat :=
  if cs.isEmpty then none
  else if cs.all (·.isDigit) then
    some (cs.foldl (fun n c => n * 10 + (c.toNat - 48)) 0)
  else none

/-- The comparator parses `a.visitDate.split('/').reverse().join('-')` with
`new Date(...)`.  For the `D/M/YYYY` strings the rows carry, the reversed
string is `Y-M-D`; it parses to a time value exactly when the three fields are
numeric and in calendar range, and otherwise gives an invalid date (`NaN`).
The JS time value is modelled by the chronologically monotone key
`y*10000 + m*100 + d` — only the sign of comparator differences is ever
used, so any strictly monotone encoding of valid dates is faithful. -/
def parseVisitDate (s : String) : Option Int :=
  match splitOnChar '/' s.data [] with
  | [df, mf, yf] =>
    match digitsToNat df, digitsToNat mf, digitsToNat yf with
    | some d, some m, some y =>
      if 1 ≤ m ∧ m ≤ 12 ∧ 1 ≤ d ∧ d ≤ 31 then
        some ((y : Int) * 10000 + (m : Int) * 100 + (d : Int))
      else none
    | _, _, _ => none
  | _ => none

/-- The comparator passed to `visits.sort`, as an integer: negative puts `a`
first, positive puts `b` first.  Subtractions of invalid dates yield `NaN` in
JS, which the sort algorithm treats exactly like 0, so those cases are
modelled as 0. -/
def visitCompare (a b : Visit) : Int :=
  match a.visitTimestamp, b.visitTimestamp with
  | some ta, some tb => tb - ta
  | none, some _ => 1
  | some _, none => -1
  | none, none =>
    if a.visitDate ≠ "" ∧ b.visitDate ≠ "" then
      match parseVisitDate a.visitDate, parseVisitDate b.visitDate with
      | some da, some db => db - da
      | _, _ => 0
    else 0

/-- Stable insertion of a row into an already-processed list: the new row goes
after every earlier row that compares ≤ 0 against it. -/
def insertVisit (v : Visit) : List Visit → List Visit
  | [] => [v]
  | w :: ws => if visitCompare w v ≤ 0 then w :: insertVisit v ws else v :: w :: ws

/-- `sortVisitsByDate` from the source.  `Array.prototype.sort` (ES2019:
stable; the order is implementation-defined when the comparator is not
consistent) is modelled as a stable insertion sort driven by `visitCompare`. -/
def sortVisitsByDate (visits : List Visit) : List Visit :=
  visits.foldl (fun acc v => insertVisit v acc) []

/-! ## Renderers

Three artifacts are produced from one row list: the chat text message
(`generateWhatsAppMessage`, lines 139–162), the HTML table of the daily email
(lines 271–300) and the spreadsheet rows (lines 303–327). -/

/-- `visits.filter(v => v.status === s).length`. -/
def statusCount (s : String) (vs : List Visit) : Nat :=
  (vs.filter fun v => v.status == s).length

/-- One per-row block of the unchunked chat message body. -/
def msgBlock (i : Nat) (v : Visit) : String :=
  "*#" ++ toString i ++ "*\n" ++
  "Visitor Name: " ++ v.visitorName ++ "\n" ++
  "Contact Number: " ++ v.contactNumber ++ "\n" ++
  "Visit Date: " ++ v.visitDate ++ "\n" ++
  "Visit Time: " ++ v.visitTime ++ "\n" ++
  "Channel Partner: " ++ v.channelPartner ++ "\n" ++
  "Property Type: " ++ v.propertyTypes ++ "\n" ++
  "Remark: " ++ v.remark ++ "\n" ++
  "Status: " ++ v.status ++ "\n" ++ "\n"

/-- The per-row blocks of the unchunked chat message, in row order. -/
def chatBlocks (vs : List Visit) : List String :=
  vs.enum.map fun p => msgBlock (p.1 + 1) p.2

/-- The trailing summary of the unchunked chat message: total plus the three
per-status counts. -/
def waSummary (vs : List Visit) : String :=
  "📈 *Summary (Last 24 Hours)*\n" ++
  "Total Visits: " ++ toString vs.length ++ "\n" ++
  "Booked: " ++ toString (statusCount "Booked" vs) ++ "\n" ++
  "Not Booked: " ++ toString (statusCount "Not Booked" vs) ++ "\n" ++
  "Interested: " ++ toString (statusCount "Interested" vs) ++ "\n"

/-- `generateWhatsAppMessage`: header line, generation timestamp, one block
per row, then the summary. -/
def generateWhatsAppMessage (g : String) (vs : List Visit) : String :=
  "📊 *Visit Report (Last 24 Hours)*\n" ++ "Generated: " ++ g ++ "\n" ++
  sjoin (chatBlocks vs) ++ waSummary vs

/-- One `<tr>` of the daily email's HTML table (template-literal indentation
whitespace elided; all tags, styles and interpolated fields as in the
source). -/
def htmlRow (i : Nat) (r : Visit) : String :=
  "<tr style=\"background:" ++ (if i % 2 = 0 then "#f8f9fa" else "#ffffff") ++ ";\">" ++
  "<td style=\"text-align:center;\">" ++ toString (i + 1) ++ "</td>" ++
  "<td>" ++ r.visitorName ++ "</td>" ++
  "<td>" ++ r.contactNumber ++ "</td>" ++
  "<td style=\"text-align:center;font-weight:bold;color:#2980b9;\">" ++ r.visitDate ++ "</td>" ++
  "<td style=\"text-align:center;\">" ++ r.visitTime ++ "</td>" ++
  "<td>" ++ r.channelPartner ++ "</td>" ++
  "<td>" ++ r.propertyTypes ++ "</td>" ++
  "<td>" ++ r.remark ++ "</td>" ++
  "<td style=\"text-align:center;font-weight:bold;\">" ++ r.status ++ "</td>" ++
  "</tr>"

/-- The `<tr>` rows of the HTML table, in row order (the source maps over the
row list with the running index and joins with the empty string). -/
def htmlRows (vs : List Visit) : List String :=
  vs.enum.map fun p => htmlRow p.1 p.2

/-- The trailing summary block of the HTML report: total plus the three
per-status counts. -/
def htmlSummaryBlock (vs : List Visit) : String :=
  "<div style=\"text-align:center;margin-top:20px;padding:15px;background:#f8f9fa;border-radius:5px;\">" ++
  "<p><strong>Total Visits (Last 24 Hours):</strong> " ++ toString vs.length ++ "</p>" ++
  "<p><strong>Booked:</strong> " ++ toString (statusCount "Booked" vs) ++ "</p>" ++
  "<p><strong>Not Booked:</strong> " ++ toString (statusCount "Not Booked" vs) ++ "</p>" ++
  "<p><strong>Interested:</strong> " ++ toString (statusCount "Interested" vs) ++ "</p>" ++
  "<p style=\"font-size:12px;color:#7f8c8d;margin-top:10px;\">📅 Data sorted by visit date (most recent first)</p>" ++
  "</div>"

/-- The complete HTML body of the scheduled email. -/
def htmlTable (g : String) (vs : List Visit) : String :=
  "<div style=\"font-family:Arial,sans-serif;max-width:1000px;margin:0 auto;padding:20px;\">" ++
  "<h2 style=\"color:#2c3e50;text-align:center;\">📊 Site Visit Report (Last 24 Hours)</h2>" ++
  "<p style=\"text-align:center;color:#7f8c8d;\">Generated on " ++ g ++ "</p>" ++
  "<table border=\"1\" cellspacing=\"0\" cellpadding=\"8\">" ++
  "<tr style=\"background:#2c3e50; color:#fff;\">" ++
  "<th>S.No</th><th>Visitor Name</th><th>Contact Number</th><th>Visit Date</th><th>Visit Time</th>" ++
  "<th>Channel Partner</th><th>Property Types</th><th>Remark</th><th>Status</th></tr>" ++
  sjoin (htmlRows vs) ++ "</table>" ++ htmlSummaryBlock vs ++ "</div>"

/-- One spreadsheet data row: `worksheet.addRow({ sno: i + 1, ...r })` keeps
exactly the keys declared in `worksheet.columns` (`sno` plus the eight
rendered fields; the spread-in `visitTimestamp` has no column and is
dropped by ExcelJS). -/
structure ExcelRow where
  sno : Nat
  visitorName : String
  contactNumber : String
  visitDate : String
  visitTime : String
  channelPartner : String
  propertyTypes : String
  remark : String
  status : String
deriving DecidableEq, Repr

/-- The rendered field values of a spreadsheet row, in column order. -/
def ExcelRow.fields (e : ExcelRow) : List String :=
  [e.visitorName, e.contactNumber, e.visitDate, e.visitTime,
   e.channelPartner, e.propertyTypes, e.remark, e.status]

/-- The spreadsheet data rows, in row order. -/
def excelRows (vs : List Visit) : List ExcelRow :=
  vs.enum.map fun p =>
    ⟨p.1 + 1, p.2.visitorName, p.2.contactNumber, p.2.visitDate, p.2.visitTime,
     p.2.channelPartner, p.2.propertyTypes, p.2.remark, p.2.status⟩

/-! ## Chunking sender (`sendWhatsAppReport`, src/server.js lines 167–256)

When the full message exceeds 1500 UTF-16 units, the per-row blocks are
re-rendered (`#i` instead of `*#i*`, `Remarks:` instead of `Remark:`) and
packed greedily: when appending the next block would push the current chunk
over the budget, the chunk is sealed and a fresh chunk starts with a
part-number header.  The summary is appended to the last chunk with no length
check, and a freshly opened chunk receives its block with no length check. -/

/-- The per-row block of the chunked path. -/
def chunkVisitText (i : Nat) (v : Visit) : String :=
  "#" ++ toString i ++ "\n" ++
  "Visitor Name: " ++ v.visitorName ++ "\n" ++
  "Contact Number: " ++ v.contactNumber ++ "\n" ++
  "Visit Date: " ++ v.visitDate ++ "\n" ++
  "Visit Time: " ++ v.visitTime ++ "\n" ++
  "Channel Partner: " ++ v.channelPartner ++ "\n" ++
  "Property Type: " ++ v.propertyTypes ++ "\n" ++
  "Remarks: " ++ v.remark ++ "\n" ++
  "Status: " ++ v.status ++ "\n\n"

/-- The row blocks of the chunked path, in row order. -/
def rowBlocks (vs : List Visit) : List String :=
  vs.enum.map fun p => chunkVisitText (p.1 + 1) p.2

/-- The header of the first chunk. -/
def chunkHeader1 (g : String) : String :=
  "📊 *Visit Report (Last 24 Hours - Part 1)*\n" ++
  "Generated: " ++ g ++ "\n" ++
  "📅 *Sorted by Date (Latest First)*\n\n"

/-- The header opening chunk number `k` (for `k ≥ 2`). -/
def chunkHeaderN (k : Nat) : String :=
  "Visit Report (Last 24 Hours - Part " ++ toString k ++
  ")\n📅 *Sorted by Date (Latest First)*\n\n"

/-- The abbreviated summary appended to the final chunk: total and Booked
count only. -/
def chunkSummary (vs : List Visit) : String :=
  "📈 *Summary (Last 24 Hours)*\nTotal: " ++ toString vs.length ++
  " | Booked: " ++ toString (statusCount "Booked" vs)

/-- The mutable state of the chunking loop. -/
structure ChunkState where
  chunks : List String
  currentChunk : String
  chunkNumber : Nat
deriving DecidableEq, Repr

/-- One iteration of the chunking loop body for the next row block. -/
def chunkStep (maxLength : Nat) (st : ChunkState) (b : String) : ChunkState :=
  if utf16Len (st.currentChunk ++ b) > maxLength then
    ⟨st.chunks ++ [st.currentChunk], chunkHeaderN (st.chunkNumber + 1) ++ b, st.chunkNumber + 1⟩
  else
    ⟨st.chunks, st.currentChunk ++ b, st.chunkNumber⟩

/-- The chunk bodies produced by the chunked path of `sendWhatsAppReport`, in
send order: the loop over the row blocks, then the summary appended to the
final chunk. -/
def chunkVisits (g : String) (vs : List Visit) : List String :=
  let st := (rowBlocks vs).foldl (chunkStep 1500) ⟨[], chunkHeader1 g, 1⟩
  st.chunks ++ [st.currentChunk ++ chunkSummary vs]

/-! ## Delivery: outbound sends, traces and the WhatsApp sender -/

/-- A delivery channel. -/
inductive Channel
  | email
  | chat
deriving DecidableEq, Repr

/-- One outbound send that was dispatched: the channel, the destination
actually passed to the transport, and the body. -/
structure Action where
  channel : Channel
  dest : String
  body : String
deriving DecidableEq, Repr

/-- The external services: `emailSend to` is the outcome of
`transporter.sendMail` to that recipient, `chatSid k` the outcome of the
`k`-th `twilioClient.messages.create` call of a run (`Except.error` models a
thrown error). -/
structure Env where
  emailSend : String → Except String String
  chatSid : Nat → Except String String

/-- The object returned by `sendWhatsAppReport`: `messageId` on the
single-message paths, `messageIds` on the chunked path. -/
structure WaResult where
  success : Bool
  messageId : Option String
  messageIds : Option (List String)
  visitsCount : Nat
deriving DecidableEq, Repr

/-- `phoneNumber.startsWith('whatsapp:')`, computed on the character lists. -/
def startsWithWa (s : String) : Bool :=
  "whatsapp:".data.isPrefixOf s.data

/-- The `formattedNumber` computation of `sendWhatsAppReport`: prepend the
`whatsapp:` scheme unless it is already there. -/
def formatNumber (phoneNumber : String) : String :=
  if startsWithWa phoneNumber then phoneNumber else "whatsapp:" ++ phoneNumber

/-- The body sent when the row set is empty. -/
def noDataMessage (g : String) : String :=
  "📊 *Visit Report (Last 24 Hours)*\n" ++
  "Generated: " ++ g ++ "\n\n" ++
  "ℹ️ No visits recorded in the last 24 hours.\n\n" ++
  "📈 *Summary*\nTotal Recent Visits: 0"

/-- The sequential chunk-send loop: each chunk is dispatched in order (with
the 2-second pacing delay between sends, which has no observable effect in
this model); a thrown send error aborts the remaining chunks and propagates,
leaving the already-dispatched sends in the trace. -/
def sendChunks (env : Env) (dest : String) :
    Nat → List String → Except String (List String) × List Action
  | _, [] => (.ok [], [])
  | k, c :: cs =>
    match env.chatSid k with
    | .error e => (.error e, [⟨.chat, dest, c⟩])
    | .ok sid =>
      let r := sendChunks env dest (k + 1) cs
      ((r.1.map fun sids => sid :: sids), ⟨.chat, dest, c⟩ :: r.2)

/-- `sendWhatsAppReport`: the empty-set "no data" message, the single-message
path when the body fits the 1500-unit budget, and the chunked path
otherwise. -/
def sendWhatsAppReport (env : Env) (g : String) (phoneNumber : String)
    (visits : List Visit) : Except String WaResult × List Action :=
  let fn := formatNumber phoneNumber
  if visits.length = 0 then
    let body := noDataMessage g
    match env.chatSid 0 with
    | .error e => (.error e, [⟨.chat, fn, body⟩])
    | .ok sid => (.ok ⟨true, some sid, none, 0⟩, [⟨.chat, fn, body⟩])
  else
    let message := generateWhatsAppMessage g visits
    if utf16Len message ≤ 1500 then
      match env.chatSid 0 with
      | .error e => (.error e, [⟨.chat, fn, message⟩])
      | .ok sid => (.ok ⟨true, some sid, none, visits.length⟩, [⟨.chat, fn, message⟩])
    else
      let r := sendChunks env fn 0 (chunkVisits g visits)
      ((r.1.map fun sids => ⟨true, none, some sids, visits.length⟩), r.2)

/-! ## Daily job (`sendDailyReport`, src/server.js lines 261–360) -/

/-- The object returned by `sendDailyReport`: the early empty-set return
carries only a message and a zero count; the full return carries the success
flag, the email message id and the WhatsApp result. -/
structure DailyOk where
  success : Option Bool
  message : String
  visitCount : Nat
  emailId : Option String
  whatsappResult : Option WaResult
deriving DecidableEq, Repr

/-- `sendDailyReport`: fetch (already filtered to the last 24 hours and
sorted, as `fetchVisitData` does), return early on an empty row set, else
email the HTML report with the spreadsheet attachment to the fixed address
and then send the WhatsApp report to the fixed number. -/
def sendDailyReport (env : Env) (g : String) (now : Int) (store : List Visit) :
    Except String DailyOk × List Action :=
  let vs := sortVisitsByDate (filterLast24Hours now store)
  if vs.length = 0 then
    (.ok ⟨none, "No visits found in last 24 hours", 0, none, none⟩, [])
  else
    let act : Action := ⟨.email, "rajch54875@gmail.com", htmlTable g vs⟩
    match env.emailSend "rajch54875@gmail.com" with
    | .error e => (.error e, [act])
    | .ok mid =>
      let wa := sendWhatsAppReport env g "+917792097977" vs
      match wa.1 with
      | .error e => (.error e, act :: wa.2)
      | .ok w =>
        (.ok ⟨some true, "Daily report sent successfully (last 24 hours, date-wise sorted)",
              vs.length, some mid, some w⟩, act :: wa.2)

/-! ## Manual endpoint (`POST /send-report`, src/server.js lines 365–464) -/

/-- ASCII whitespace, the relevant part of the regex class `\s` and of
`String.prototype.trim` for the strings at hand. -/
def jsWs (c : Char) : Bool :=
  c = ' ' || c = '\t' || c = '\n' || c = '\r'

/-- `String.prototype.trim`: strip leading and trailing whitespace. -/
def jsTrim (s : String) : String :=
  ⟨((s.data.dropWhile jsWs).reverse.dropWhile jsWs).reverse⟩

/-- The test of `/^[^\s@]+@[^\s@]+\.[^\s@]+$/`: no whitespace anywhere,
exactly one `@` that is not first, and after the `@` a dot with at least one
character on each side.  (The two `[^\s@]+` parts around the matched dot may
themselves contain dots, hence "some interior dot".) -/
def emailRegexTest (s : String) : Bool :=
  let cs := s.data
  cs.all (fun c => !jsWs c) &&
  (cs.count '@' == 1) &&
  (match splitOnChar '@' cs [] with
   | [a, rest] => !a.isEmpty && ((rest.dropLast.drop 1).contains '.')
   | _ => false)

/-- The request body of `POST /send-report` after JSON parsing: `none` models
an absent field (the destructuring default for `sendMethod` is applied by the
handler).  `subject` and the base64 attachments are forwarded opaquely into
the email send and are not modelled further. -/
structure Req where
  sendMethod : Option String
  /-- The `to` field of the request (destination email). -/
  toAddr : Option String
  whatsappNumber : Option String
  subject : Option String
  html : Option String
  visits : List Visit

/-- `results.email` of a successful email step. -/
structure EmailRes where
  success : Bool
  messageId : String
  dataType : String
  visitCount : Nat
deriving DecidableEq, Repr

/-- The JSON response (with its HTTP status): the 200 body carries `ok`,
`message`, the per-channel results and the counts; the 400/500 bodies carry
only `ok: false` and `error`. -/
structure Resp where
  status : Nat
  ok : Bool
  error : Option String
  message : Option String
  emailRes : Option EmailRes
  whatsappRes : Option WaResult
  totalVisits : Option Nat
  sentVisits : Option Nat
deriving DecidableEq, Repr

/-- A 400/500 response: `{ ok: false, error }`. -/
def errResp (code : Nat) (e : String) : Resp :=
  ⟨code, false, some e, none, none, none, none, none⟩

/-- The default HTML body used by the manual email when the request carries
none (template-literal indentation whitespace elided). -/
def defaultManualHtml (g : String) (n : Nat) : String :=
  "<div style=\"font-family:Arial,sans-serif;padding:20px;\">" ++
  "<h2 style=\"color:#2c3e50;\">📊 Site Visit Report (Last 24 Hours)</h2>" ++
  "<p style=\"color:#7f8c8d;\">Generated on " ++ g ++ "</p>" ++
  "<p><strong>Total Visits (Last 24 Hours):</strong> " ++ toString n ++ "</p>" ++
  "</div>"

/-- The email step of the handler: runs when the method includes email;
an absent/blank recipient or a regex failure returns 400 at once (no send
dispatched), a thrown send error returns 500 (after the dispatch), and
success hands `results.email` on to the rest of the handler. -/
def emailPhase (env : Env) (g : String) (req : Req) (sorted : List Visit)
    (m : String) : Except (Resp × List Action) (Option EmailRes × List Action) :=
  if m = "email" ∨ m = "both" then
    match req.toAddr with
    | none => .error (errResp 400 "Email recipient is required", [])
    | some t =>
      if jsTrim t = "" then .error (errResp 400 "Email recipient is required", [])
      else if !emailRegexTest (jsTrim t) then .error (errResp 400 "Invalid email format", [])
      else
        let body := req.html.getD (defaultManualHtml g sorted.length)
        let act : Action := ⟨.email, jsTrim t, body⟩
        match env.emailSend (jsTrim t) with
        | .error e => .error (errResp 500 e, [act])
        | .ok mid => .ok (some ⟨true, mid, "last_24_hours_date_sorted", sorted.length⟩, [act])
  else .ok (none, [])

/-- The `POST /send-report` handler: filter and sort the submitted rows, run
the email step (whose early returns end the request), then the WhatsApp step
(`sendMethod === 'whatsapp' || sendMethod === 'both'`; a missing or empty
number returns 400 — dropping any email result already obtained), then the
200 aggregate. -/
def handleSendReport (env : Env) (g : String) (now : Int) (req : Req) :
    Resp × List Action :=
  let m := req.sendMethod.getD "email"
  let sorted := sortVisitsByDate (filterLast24Hours now req.visits)
  match emailPhase env g req sorted m with
  | .error r => r
  | .ok (eres, tr) =>
    if m = "whatsapp" ∨ m = "both" then
      match req.whatsappNumber with
      | none => (errResp 400 "WhatsApp number is required", tr)
      | some wn =>
        if wn = "" then (errResp 400 "WhatsApp number is required", tr)
        else
          let wa := sendWhatsAppReport env g wn sorted
          match wa.1 with
          | .error e => (errResp 500 e, tr ++ wa.2)
          | .ok w =>
            (⟨200, true, none,
              some ("Report sent successfully via " ++ m ++ " (last 24 hours data, date-wise sorted)"),
              eres, some w, some req.visits.length, some sorted.length⟩, tr ++ wa.2)
    else
      (⟨200, true, none,
        some ("Report sent successfully via " ++ m ++ " (last 24 hours data, date-wise sorted)"),
        eres, none, some req.visits.length, some sorted.length⟩, tr)

/-! ## Abstractions used by the theorems -/

/-- The four numbers of the full report summary. -/
structure SummaryCounts where
  total : Nat
  booked : Nat
  notBooked : Nat
  interested : Nat
deriving DecidableEq, Repr

/-- The summary numbers computed from a row list: total, Booked, Not Booked
and Interested counts. -/
def summaryCounts (vs : List Visit) : SummaryCounts :=
  ⟨vs.length, statusCount "Booked" vs, statusCount "Not Booked" vs,
   statusCount "Interested" vs⟩

/-- The chat summary text as a function of the four summary numbers. -/
def waSummaryOfCounts (c : SummaryCounts) : String :=
  "📈 *Summary (Last 24 Hours)*\n" ++
  "Total Visits: " ++ toString c.total ++ "\n" ++
  "Booked: " ++ toString c.booked ++ "\n" ++
  "Not Booked: " ++ toString c.notBooked ++ "\n" ++
  "Interested: " ++ toString c.interested ++ "\n"

/-- The HTML summary block as a function of the four summary numbers. -/
def htmlSummaryOfCounts (c : SummaryCounts) : String :=
  "<div style=\"text-align:center;margin-top:20px;padding:15px;background:#f8f9fa;border-radius:5px;\">" ++
  "<p><strong>Total Visits (Last 24 Hours):</strong> " ++ toString c.total ++ "</p>" ++
  "<p><strong>Booked:</strong> " ++ toString c.booked ++ "</p>" ++
  "<p><strong>Not Booked:</strong> " ++ toString c.notBooked ++ "</p>" ++
  "<p><strong>Interested:</strong> " ++ toString c.interested ++ "</p>" ++
  "<p style=\"font-size:12px;color:#7f8c8d;margin-top:10px;\">📅 Data sorted by visit date (most recent first)</p>" ++
  "</div>"

/-- The chunked-path summary text as a function of the two numbers it shows. -/
def chunkSummaryOfCounts (total booked : Nat) : String :=
  "📈 *Summary (Last 24 Hours)*\nTotal: " ++ toString total ++
  " | Booked: " ++ toString booked

/-- "`a` may precede `b`" for the parts of the sort contract that hold on
every input: a row with no timestamp never precedes a row with one, and
timestamps are non-increasing. -/
def sortedRel (a b : Visit) : Prop :=
  (a.visitTimestamp = none → b.visitTimestamp = none) ∧
  ∀ ta tb, a.visitTimestamp = some ta → b.visitTimestamp = some tb → tb ≤ ta

/-- "`a` may precede `b`" for the tie-break among timestamp-less rows: when
both parse, the parsed dates are non-increasing. -/
def dateRel (a b : Visit) : Prop :=
  ∀ da db, a.visitTimestamp = none → b.visitTimestamp = none →
    parseVisitDate a.visitDate = some da → parseVisitDate b.visitDate = some db →
    db ≤ da

/-- Ghost state of the chunking loop: the sealed chunks split into their
header and their row blocks, plus the open chunk in the same split form. -/
structure GChunk where
  dHeaders : List String
  dParts : List (List String)
  curHeader : String
  curPart : List String
  k : Nat

/-- The concrete chunking state a ghost state denotes. -/
def GChunk.abs (gc : GChunk) : ChunkState :=
  ⟨List.zipWith (fun h p => h ++ sjoin p) gc.dHeaders gc.dParts,
   gc.curHeader ++ sjoin gc.curPart, gc.k⟩

/-- The ghost step mirroring `chunkStep`: sealing moves the open chunk to the
done lists and starts a fresh one holding exactly the new block. -/
def gStep (L : Nat) (gc : GChunk) (b : String) : GChunk :=
  if utf16Len ((gc.curHeader ++ sjoin gc.curPart) ++ b) > L then
    ⟨gc.dHeaders ++ [gc.curHeader], gc.dParts ++ [gc.curPart],
     chunkHeaderN (gc.k + 1), [b], gc.k + 1⟩
  else
    ⟨gc.dHeaders, gc.dParts, gc.curHeader, gc.curPart ++ [b], gc.k⟩

/-! ## Concrete inputs used by counterexamples and witnesses -/

/-- A row with every field at its fallback value and no timestamp. -/
def plainVisit : Visit := ⟨"-", "-", "-", "-", "-", "-", "-", "Not Booked", none⟩

/-- A row whose timestamp lies strictly after `now = 0`. -/
def futureVisit : Visit := { plainVisit with visitTimestamp := some 1 }

/-- A 1450-character remark, long enough to push a single row block past the
1500-unit chat budget. -/
def bigRemark : String := String.mk (List.replicate 1450 'a')

/-- A single oversized row with status `Interested`. -/
def bigVisitA : Visit := { plainVisit with remark := bigRemark, status := "Interested" }

/-- A single oversized row with the default status `Not Booked`. -/
def bigVisitB : Visit := { plainVisit with remark := bigRemark }

/-- A timestamp-less row dated 1 January 2020. -/
def rowD1 : Visit := { plainVisit with visitDate := "01/01/2020" }

/-- A timestamp-less row dated 2 January 2020. -/
def rowD2 : Visit := { plainVisit with visitDate := "02/01/2020" }

/-- A timestamp-less row with the fallback date string, which does not parse. -/
def rowU : Visit := plainVisit

/-- An environment in which every outbound send succeeds. -/
def env0 : Env := ⟨fun _ => .ok "EMAIL-ID", fun _ => .ok "CHAT-SID"⟩

/-- An environment in which the email transport throws. -/
def envEmailFail : Env := ⟨fun _ => .error "smtp down", fun _ => .ok "CHAT-SID"⟩

/-- `sendMethod "both"`, a valid email, no chat number. -/
def reqBothNoChat : Req := ⟨some "both", some "a@b.co", none, none, none, []⟩

/-- `sendMethod "both"`, a valid email, an empty chat number. -/
def reqBothEmptyChat : Req := ⟨some "both", some "x@y.zz", some "", none, none, []⟩

/-! # Theorems -/

theorem isPrefixOf_append_self (p s : List Char) : p.isPrefixOf (p ++ s) = true := by
  induction p with
  | nil => simp [List.isPrefixOf]
  | cons c cs ih => simp [List.isPrefixOf, ih]

theorem noDataMessage_ne_empty (g : String) : noDataMessage g ≠ "" := by
  intro hcon
  have hd := congrArg String.data hcon
  rw [noDataMessage] at hd
  simp only [String.data_append, List.append_eq_nil] at hd
  exact absurd hd.1.1.1.1 (by decide)

/-- **C2** (corrected): the claim fails as stated — the filter has no upper
bound, so a row whose timestamp lies strictly after `now` (outside the closed
interval `[now - 24h, now]`) is returned.  At `now = 0` the row with
timestamp `1` is kept by `filterLast24Hours`, while the interval filter
written from the spec excludes it. -/
theorem c2_recency_filter_counterexample :
    filterLast24Hours 0 [futureVisit] = [futureVisit] ∧
    specWindowFilter 0 [futureVisit] = [] ∧
    futureVisit.visitTimestamp = some 1 := by decide

/-- **C2** (amended): `filterLast24Hours` returns exactly the rows of the
input (an order-preserving sublist) whose timestamp is present and at least
`now - 24h`; there is no upper bound, and rows with no timestamp are
excluded. -/
theorem c2_recency_filter (now : Int) (rows : List Visit) :
    (filterLast24Hours now rows).Sublist rows ∧
    (∀ r, r ∈ filterLast24Hours now rows ↔
      r ∈ rows ∧ ∃ t, r.visitTimestamp = some t ∧ now - twentyFourHoursMs ≤ t) := by
  refine ⟨List.filter_sublist _, fun r => ?_⟩
  simp only [filterLast24Hours, List.mem_filter]
  constructor
  · rintro ⟨hr, hp⟩
    refine ⟨hr, ?_⟩
    cases h : r.visitTimestamp with
    | none => rw [h] at hp; exact absurd hp (by simp)
    | some t => rw [h] at hp; exact ⟨t, rfl, by simpa using hp⟩
  · rintro ⟨hr, t, ht, hle⟩
    refine ⟨hr, ?_⟩
    rw [ht]
    simpa using hle

/-- **C7** (confirmed): when the filtered row set of the daily job is empty,
the job returns the zero-count early result and the trace is empty — nothing
is sent on either channel. -/
theorem c7_empty_daily (env : Env) (g : String) (now : Int) (store : List Visit)
    (h : filterLast24Hours now store = []) :
    sendDailyReport env g now store =
      (.ok ⟨none, "No visits found in last 24 hours", 0, none, none⟩, []) := by
  unfold sendDailyReport
  rw [h]
  rfl

theorem c7_empty_daily_witness :
    filterLast24Hours 0 [] = [] ∧
    sendDailyReport env0 "G" 0 [] =
      (.ok ⟨none, "No visits found in last 24 hours", 0, none, none⟩, []) :=
  ⟨rfl, c7_empty_daily env0 "G" 0 [] rfl⟩

/-- **C8** (confirmed): on an empty row set the chat sender dispatches exactly
one message — the non-empty "no data" body — to the normalized destination,
and returns success with a visit count of 0. -/
theorem c8_empty_chat (env : Env) (g pn sid : String)
    (h : env.chatSid 0 = .ok sid) :
    sendWhatsAppReport env g pn [] =
      (.ok ⟨true, some sid, none, 0⟩, [⟨.chat, formatNumber pn, noDataMessage g⟩]) ∧
    noDataMessage g ≠ "" := by
  refine ⟨?_, noDataMessage_ne_empty g⟩
  unfold sendWhatsAppReport
  simp [h]

theorem c8_empty_chat_witness :
    env0.chatSid 0 = Except.ok "CHAT-SID" ∧
    (sendWhatsAppReport env0 "G" "+91" [] =
      (.ok ⟨true, some "CHAT-SID", none, 0⟩,
       [⟨.chat, formatNumber "+91", noDataMessage "G"⟩]) ∧
     noDataMessage "G" ≠ "") :=
  ⟨rfl, c8_empty_chat env0 "G" "+91" "CHAT-SID" rfl⟩

theorem sendChunks_actions (env : Env) (dest : String) :
    ∀ (cs : List String) (k : Nat), ∀ a ∈ (sendChunks env dest k cs).2,
      a.channel = Channel.chat ∧ a.dest = dest := by
  intro cs
  induction cs with
  | nil => intro k a ha; simp [sendChunks] at ha
  | cons c rest ih =>
    intro k a ha
    unfold sendChunks at ha
    cases h : env.chatSid k with
    | error e =>
      rw [h] at ha
      simp at ha
      subst ha
      exact ⟨rfl, rfl⟩
    | ok sid =>
      rw [h] at ha
      simp at ha
      rcases ha with ha | ha
      · subst ha; exact ⟨rfl, rfl⟩
      · exact ih (k + 1) a ha

/-- **C10** (confirmed): the chat destination is always the `whatsapp:`-scheme
normalization of the supplied number — already-prefixed numbers pass through
unchanged, all others get the prefix prepended exactly once (the normalization
is idempotent) — and every action dispatched by the chat sender goes to that
normalized destination. -/
theorem c10_whatsapp_scheme (env : Env) (g pn : String) (vs : List Visit) :
    startsWithWa (formatNumber pn) = true ∧
    formatNumber (formatNumber pn) = formatNumber pn ∧
    (startsWithWa pn = true → formatNumber pn = pn) ∧
    (startsWithWa pn = false → formatNumber pn = "whatsapp:" ++ pn) ∧
    (∀ a ∈ (sendWhatsAppReport env g pn vs).2, a.dest = formatNumber pn) := by
  have hpre : startsWithWa ("whatsapp:" ++ pn) = true := by
    simp [startsWithWa, String.data_append, isPrefixOf_append_self]
  have hsw : startsWithWa (formatNumber pn) = true := by
    by_cases h : startsWithWa pn = true
    · simp [formatNumber, h]
    · simp [formatNumber, h, hpre]
  have hid : formatNumber (formatNumber pn) = formatNumber pn := by
    by_cases h : startsWithWa pn = true
    · simp [formatNumber, h]
    · simp [formatNumber, h, hpre]
  refine ⟨hsw, hid, fun h => by simp [formatNumber, h],
    fun h => by simp [formatNumber, h], ?_⟩
  intro a ha
  unfold sendWhatsAppReport at ha
  by_cases hlen : vs.length = 0
  · rw [if_pos hlen] at ha
    cases h : env.chatSid 0 with
    | error e => rw [h] at ha; simp at ha; subst ha; rfl
    | ok sid => rw [h] at ha; simp at ha; subst ha; rfl
  · rw [if_neg hlen] at ha
    by_cases hfit : utf16Len (generateWhatsAppMessage g vs) ≤ 1500
    · rw [if_pos hfit] at ha
      cases h : env.chatSid 0 with
      | error e => rw [h] at ha; simp at ha; subst ha; rfl
      | ok sid => rw [h] at ha; simp at ha; subst ha; rfl
    · rw [if_neg hfit] at ha
      simp only at ha
      exact (sendChunks_actions env (formatNumber pn) (chunkVisits g vs) 0 a ha).2

theorem c10_whatsapp_scheme_witness :
    (startsWithWa "+91" = false ∧ formatNumber "+91" = "whatsapp:" ++ "+91") ∧
    (startsWithWa "whatsapp:+91" = true ∧ formatNumber "whatsapp:+91" = "whatsapp:+91") :=
  ⟨⟨by decide, (c10_whatsapp_scheme env0 "G" "+91" []).2.2.2.1 (by decide)⟩,
   ⟨by decide, (c10_whatsapp_scheme env0 "G" "whatsapp:+91" []).2.2.1 (by decide)⟩⟩

theorem map_enumFrom_snd_comp {β : Type} (f : Visit → β) :
    ∀ (n : Nat) (vs : List Visit),
      ((vs.enumFrom n).map fun p => f p.2) = vs.map f := by
  intro n vs
  induction vs generalizing n with
  | nil => rfl
  | cons a as ih => simp [List.enumFrom, ih]

theorem map_enumFrom_fst_succ :
    ∀ (n : Nat) (vs : List Visit),
      ((vs.enumFrom n).map fun p => p.1 + 1) = List.range' (n + 1) vs.length := by
  intro n vs
  induction vs generalizing n with
  | nil => rfl
  | cons a as ih => simp [List.enumFrom, List.range', ih]

theorem map_enumFrom_congr_fields {β : Type} (f : Nat → Visit → β)
    (hf : ∀ i a b, fieldTuple a = fieldTuple b → f i a = f i b) :
    ∀ (n : Nat) (vs vs' : List Visit), vs.map fieldTuple = vs'.map fieldTuple →
      (vs.enumFrom n).map (fun p => f p.1 p.2) =
        (vs'.enumFrom n).map (fun p => f p.1 p.2) := by
  intro n vs
  induction vs generalizing n with
  | nil =>
    intro vs' h
    cases vs' with
    | nil => rfl
    | cons b bs => simp at h
  | cons a as ih =>
    intro vs' h
    cases vs' with
    | nil => simp at h
    | cons b bs =>
      simp only [List.map_cons, List.cons.injEq] at h
      obtain ⟨hab, hrest⟩ := h
      simp only [List.enumFrom, List.map_cons, List.cons.injEq]
      exact ⟨hf n a b hab, ih (n + 1) bs hrest⟩

theorem htmlRow_congr (i : Nat) (a b : Visit)
    (h : fieldTuple a = fieldTuple b) : htmlRow i a = htmlRow i b := by
  simp only [fieldTuple, List.cons.injEq, and_true] at h
  obtain ⟨h1, h2, h3, h4, h5, h6, h7, h8⟩ := h
  simp [htmlRow, h1, h2, h3, h4, h5, h6, h7, h8]

theorem msgBlock_congr (i : Nat) (a b : Visit)
    (h : fieldTuple a = fieldTuple b) : msgBlock i a = msgBlock i b := by
  simp only [fieldTuple, List.cons.injEq, and_true] at h
  obtain ⟨h1, h2, h3, h4, h5, h6, h7, h8⟩ := h
  simp [msgBlock, h1, h2, h3, h4, h5, h6, h7, h8]

theorem excelEntry_congr (i : Nat) (a b : Visit)
    (h : fieldTuple a = fieldTuple b) :
    (⟨i + 1, a.visitorName, a.contactNumber, a.visitDate, a.visitTime,
      a.channelPartner, a.propertyTypes, a.remark, a.status⟩ : ExcelRow) =
    ⟨i + 1, b.visitorName, b.contactNumber, b.visitDate, b.visitTime,
      b.channelPartner, b.propertyTypes, b.remark, b.status⟩ := by
  simp only [fieldTuple, List.cons.injEq, and_true] at h
  obtain ⟨h1, h2, h3, h4, h5, h6, h7, h8⟩ := h
  simp [h1, h2, h3, h4, h5, h6, h7, h8]

/-- **C4** (confirmed): the spreadsheet rows, the HTML table rows and the chat
blocks are all driven by the same row list in the same order: the spreadsheet
rows recover exactly the per-row field tuples (with serial numbers 1..n), the
HTML and chat artifacts have one unit per row, and all three renderings are
determined by the sequence of per-row field values alone. -/
theorem c4_renderings_agree (vs vs' : List Visit) :
    (excelRows vs).map ExcelRow.fields = vs.map fieldTuple ∧
    (excelRows vs).map ExcelRow.sno = List.range' 1 vs.length ∧
    (htmlRows vs).length = vs.length ∧
    (chatBlocks vs).length = vs.length ∧
    (vs.map fieldTuple = vs'.map fieldTuple →
      htmlRows vs = htmlRows vs' ∧ chatBlocks vs = chatBlocks vs' ∧
      excelRows vs = excelRows vs') := by
  refine ⟨?_, ?_, ?_, ?_, fun h => ⟨?_, ?_, ?_⟩⟩
  · simp only [excelRows, List.map_map, List.enum]
    exact map_enumFrom_snd_comp fieldTuple 0 vs
  · simp only [excelRows, List.map_map, List.enum]
    exact map_enumFrom_fst_succ 0 vs
  · simp [htmlRows]
  · simp [chatBlocks]
  · exact map_enumFrom_congr_fields (fun i v => htmlRow i v) htmlRow_congr 0 vs vs' h
  · exact map_enumFrom_congr_fields (fun i v => msgBlock (i + 1) v)
      (fun i => msgBlock_congr (i + 1)) 0 vs vs' h
  · exact map_enumFrom_congr_fields
      (fun i v => (⟨i + 1, v.visitorName, v.contactNumber, v.visitDate, v.visitTime,
        v.channelPartner, v.propertyTypes, v.remark, v.status⟩ : ExcelRow))
      excelEntry_congr 0 vs vs' h

theorem c4_renderings_agree_witness :
    [{ plainVisit with visitTimestamp := some 5 }].map fieldTuple =
      [plainVisit].map fieldTuple ∧
    (htmlRows [{ plainVisit with visitTimestamp := some 5 }] = htmlRows [plainVisit] ∧
     chatBlocks [{ plainVisit with visitTimestamp := some 5 }] = chatBlocks [plainVisit] ∧
     excelRows [{ plainVisit with visitTimestamp := some 5 }] = excelRows [plainVisit]) :=
  ⟨by decide,
   (c4_renderings_agree [{ plainVisit with visitTimestamp := some 5 }]
     [plainVisit]).2.2.2.2 (by decide)⟩

/-- **C9** (corrected): the claim fails on the chunked path.  A single
oversized `Interested` row and a single oversized `Not Booked` row force the
chunked path and have different Interested counts — visible in the HTML
summary — yet their chunked trailing summaries are the exact same string, so
that summary cannot carry the per-status counts the claim requires. -/
theorem c9_summary_counterexample :
    utf16Len (generateWhatsAppMessage "G" [bigVisitA]) > 1500 ∧
    chunkSummary [bigVisitA] = chunkSummary [bigVisitB] ∧
    statusCount "Interested" [bigVisitA] ≠ statusCount "Interested" [bigVisitB] ∧
    htmlSummaryBlock [bigVisitA] ≠ htmlSummaryBlock [bigVisitB] := by decide

/-- **C9** (amended): the unchunked chat message ends with a summary that
renders exactly the four numbers of the HTML summary (total, Booked, Not
Booked, Interested); the chunked path ends its final chunk with an
abbreviated summary rendering only the total and the Booked count — both
equal to the HTML summary's — and omitting Not Booked and Interested. -/
theorem c9_summary (g : String) (vs : List Visit) :
    (∃ pre, generateWhatsAppMessage g vs = pre ++ waSummary vs) ∧
    waSummary vs = waSummaryOfCounts (summaryCounts vs) ∧
    htmlSummaryBlock vs = htmlSummaryOfCounts (summaryCounts vs) ∧
    (∃ pre, (chunkVisits g vs).getLast? = some (pre ++ chunkSummary vs)) ∧
    chunkSummary vs =
      chunkSummaryOfCounts (summaryCounts vs).total (summaryCounts vs).booked := by
  refine ⟨⟨_, rfl⟩, rfl, rfl, ?_, rfl⟩
  refine ⟨((rowBlocks vs).foldl (chunkStep 1500) ⟨[], chunkHeader1 g, 1⟩).currentChunk, ?_⟩
  simp [chunkVisits]

/-- **C5** (corrected): the claim fails as stated.  With `sendMethod "both"`,
a valid email and a missing chat number, the email send is dispatched (the
trace holds the email action), but the response is the bare
`{ ok: false, error: "WhatsApp number is required" }` with no `results`
object — it does not report `results.email.success === true`. -/
theorem c5_partial_delivery_counterexample :
    (handleSendReport env0 "G" 0 reqBothNoChat).1 =
      errResp 400 "WhatsApp number is required" ∧
    (handleSendReport env0 "G" 0 reqBothNoChat).1.emailRes = none ∧
    (handleSendReport env0 "G" 0 reqBothNoChat).2 =
      [⟨.email, "a@b.co", defaultManualHtml "G" 0⟩] := by decide

/-- **C5** (amended): with `sendMethod "both"` and a valid email, the channels
run in order email-then-chat.  A missing or empty chat number does not undo
the already-dispatched email send, but the response is a 400 error object
disclosing nothing about the email result; and when the email send itself
throws, the whole request fails with a 500 and the chat channel is never
attempted. -/
theorem c5_partial_delivery (env : Env) (g : String) (now : Int) (req : Req)
    (t : String)
    (hm : req.sendMethod = some "both")
    (ht : req.toAddr = some t)
    (htr : jsTrim t ≠ "")
    (hre : emailRegexTest (jsTrim t) = true) :
    (∀ mid, env.emailSend (jsTrim t) = .ok mid →
      (req.whatsappNumber = none ∨ req.whatsappNumber = some "") →
      handleSendReport env g now req =
        (errResp 400 "WhatsApp number is required",
         [⟨.email, jsTrim t, req.html.getD (defaultManualHtml g
            (sortVisitsByDate (filterLast24Hours now req.visits)).length)⟩])) ∧
    (∀ e, env.emailSend (jsTrim t) = .error e →
      handleSendReport env g now req =
        (errResp 500 e,
         [⟨.email, jsTrim t, req.html.getD (defaultManualHtml g
            (sortVisitsByDate (filterLast24Hours now req.visits)).length)⟩])) := by
  constructor
  · intro mid hok hwn
    have hep : emailPhase env g req
        (sortVisitsByDate (filterLast24Hours now req.visits)) "both" =
        .ok (some ⟨true, mid, "last_24_hours_date_sorted",
              (sortVisitsByDate (filterLast24Hours now req.visits)).length⟩,
             [⟨.email, jsTrim t, req.html.getD (defaultManualHtml g
                (sortVisitsByDate (filterLast24Hours now req.visits)).length)⟩]) := by
      simp only [emailPhase, ht]
      rw [if_pos (Or.inr trivial), if_neg htr, hre]
      simp [hok]
    simp only [handleSendReport, hm, Option.getD_some, hep]
    rcases hwn with h | h <;> simp [h]
  · intro e herr
    have hep : emailPhase env g req
        (sortVisitsByDate (filterLast24Hours now req.visits)) "both" =
        .error (errResp 500 e,
          [⟨.email, jsTrim t, req.html.getD (defaultManualHtml g
             (sortVisitsByDate (filterLast24Hours now req.visits)).length)⟩]) := by
      simp only [emailPhase, ht]
      rw [if_pos (Or.inr trivial), if_neg htr, hre]
      simp [herr]
    simp only [handleSendReport, hm, Option.getD_some, hep]

theorem c5_partial_delivery_witness :
    handleSendReport env0 "G" 0 reqBothNoChat =
      (errResp 400 "WhatsApp number is required",
       [⟨.email, "a@b.co", defaultManualHtml "G" 0⟩]) ∧
    handleSendReport envEmailFail "G" 0 reqBothNoChat =
      (errResp 500 "smtp down",
       [⟨.email, "a@b.co", defaultManualHtml "G" 0⟩]) :=
  ⟨((c5_partial_delivery env0 "G" 0 reqBothNoChat "a@b.co" rfl rfl (by decide)
      (by decide)).1 "EMAIL-ID" rfl (Or.inl rfl)).trans (by decide),
   ((c5_partial_delivery envEmailFail "G" 0 reqBothNoChat "a@b.co" rfl rfl (by decide)
      (by decide)).2 "smtp down" rfl).trans (by decide)⟩

/-- **C6** (corrected): the claim fails as stated.  With `sendMethod "both"`,
a valid email and an empty chat number, the endpoint does return a 400 for the
missing chat destination — but only after the email send has already been
dispatched, so the 400 does not precede every send attempt. -/
theorem c6_validation_counterexample :
    (handleSendReport env0 "H" 0 reqBothEmptyChat).1.status = 400 ∧
    (handleSendReport env0 "H" 0 reqBothEmptyChat).1.error =
      some "WhatsApp number is required" ∧
    (handleSendReport env0 "H" 0 reqBothEmptyChat).2 =
      [⟨.email, "x@y.zz", defaultManualHtml "H" 0⟩] := by decide

/-- **C6** (amended): a malformed or missing destination for a selected
channel yields a 400 with an explanatory error.  The 400 precedes every send
attempt (empty trace) for email-validation failures and for chat-only
requests with a missing number; under `sendMethod "both"` the missing-chat
400 is issued only after the email send (see the counterexample). -/
theorem c6_validation (env : Env) (g : String) (now : Int) (req : Req)
    (t : String) :
    ((req.sendMethod.getD "email" = "email" ∨ req.sendMethod.getD "email" = "both") →
      (req.toAddr = none ∨ (req.toAddr = some t ∧ jsTrim t = "")) →
      handleSendReport env g now req = (errResp 400 "Email recipient is required", [])) ∧
    ((req.sendMethod.getD "email" = "email" ∨ req.sendMethod.getD "email" = "both") →
      req.toAddr = some t → jsTrim t ≠ "" → emailRegexTest (jsTrim t) = false →
      handleSendReport env g now req = (errResp 400 "Invalid email format", [])) ∧
    (req.sendMethod.getD "email" = "whatsapp" →
      (req.whatsappNumber = none ∨ req.whatsappNumber = some "") →
      handleSendReport env g now req = (errResp 400 "WhatsApp number is required", [])) := by
  refine ⟨?_, ?_, ?_⟩
  · intro hm hto
    have hep : emailPhase env g req
        (sortVisitsByDate (filterLast24Hours now req.visits)) (req.sendMethod.getD "email") =
        .error (errResp 400 "Email recipient is required", []) := by
      rcases hto with h | ⟨h, hblank⟩
      · simp only [emailPhase, h]
        rw [if_pos hm]
      · simp only [emailPhase, h]
        rw [if_pos hm, if_pos hblank]
    simp only [handleSendReport, hep]
  · intro hm hto htr hre
    have hep : emailPhase env g req
        (sortVisitsByDate (filterLast24Hours now req.visits)) (req.sendMethod.getD "email") =
        .error (errResp 400 "Invalid email format", []) := by
      simp only [emailPhase, hto]
      rw [if_pos hm, if_neg htr, hre]
      simp
    simp only [handleSendReport, hep]
  · intro hm hwn
    have hep : emailPhase env g req
        (sortVisitsByDate (filterLast24Hours now req.visits)) (req.sendMethod.getD "email") =
        .ok (none, []) := by
      have hcond : ¬ (req.sendMethod.getD "email" = "email" ∨
          req.sendMethod.getD "email" = "both") := by
        rw [hm]; decide
      simp only [emailPhase]
      rw [if_neg hcond]
    rw [hm] at hep
    simp only [handleSendReport, hm, hep]
    rcases hwn with h | h <;> simp [h]

theorem c6_validation_witness :
    handleSendReport env0 "G" 0 ⟨some "email", some "not-an-email", none, none, none, []⟩ =
      (errResp 400 "Invalid email format", []) ∧
    handleSendReport env0 "G" 0 ⟨some "email", none, none, none, none, []⟩ =
      (errResp 400 "Email recipient is required", []) ∧
    handleSendReport env0 "G" 0 ⟨some "whatsapp", none, some "", none, none, []⟩ =
      (errResp 400 "WhatsApp number is required", []) :=
  ⟨(c6_validation env0 "G" 0 ⟨some "email", some "not-an-email", none, none, none, []⟩
      "not-an-email").2.1 (Or.inl rfl) rfl (by decide) (by decide),
   (c6_validation env0 "G" 0 ⟨some "email", none, none, none, none, []⟩ "x").1
      (Or.inl rfl) (Or.inl rfl),
   (c6_validation env0 "G" 0 ⟨some "whatsapp", none, some "", none, none, []⟩ "x").2.2
      rfl (Or.inr rfl)⟩

theorem insertVisit_perm (v : Visit) (l : List Visit) :
    (insertVisit v l).Perm (v :: l) := by
  induction l with
  | nil => exact List.Perm.refl _
  | cons w ws ih =>
    unfold insertVisit
    by_cases h : visitCompare w v ≤ 0
    · rw [if_pos h]
      exact (ih.cons w).trans (List.Perm.swap v w ws)
    · rw [if_neg h]

theorem mem_insertVisit {a v : Visit} {l : List Visit}
    (h : a ∈ insertVisit v l) : a = v ∨ a ∈ l := by
  have := (insertVisit_perm v l).mem_iff.mp h
  simpa using this

theorem foldl_insertVisit_perm :
    ∀ (vs acc : List Visit),
      (vs.foldl (fun a v => insertVisit v a) acc).Perm (vs ++ acc) := by
  intro vs
  induction vs with
  | nil => intro acc; simp
  | cons v rest ih =>
    intro acc
    have h1 := ih (insertVisit v acc)
    have h2 : (rest ++ insertVisit v acc).Perm (rest ++ (v :: acc)) :=
      (insertVisit_perm v acc).append_left rest
    have h3 : (rest ++ (v :: acc)).Perm (v :: (rest ++ acc)) := List.perm_middle
    simpa using (h1.trans h2).trans h3

theorem insertVisit_pairwise (R : Visit → Visit → Prop) (P : Visit → Prop)
    (bridge1 : ∀ w v, P w → P v → visitCompare w v ≤ 0 → R w v)
    (bridge2 : ∀ u v, P u → P v → 0 < visitCompare u v → R v u)
    (htrans : ∀ a b c, P a → P b → P c → R a b → R b c → R a c) :
    ∀ (l : List Visit) (v : Visit), (∀ w ∈ l, P w) → P v →
      l.Pairwise R → (insertVisit v l).Pairwise R := by
  intro l
  induction l with
  | nil => intro v _ _ _; simp [insertVisit]
  | cons w ws ih =>
    intro v hP hv hpw
    rw [List.pairwise_cons] at hpw
    unfold insertVisit
    by_cases h : visitCompare w v ≤ 0
    · rw [if_pos h, List.pairwise_cons]
      constructor
      · intro x hx
        rcases mem_insertVisit hx with hxv | hxw
        · rw [hxv]
          exact bridge1 w v (hP w (by simp)) hv h
        · exact hpw.1 x hxw
      · exact ih v (fun u hu => hP u (by simp [hu])) hv hpw.2
    · rw [if_neg h, List.pairwise_cons]
      have hlt : 0 < visitCompare w v := by omega
      have hvw : R v w := bridge2 w v (hP w (by simp)) hv hlt
      constructor
      · intro x hx
        rcases List.mem_cons.mp hx with hxw | hxws
        · rw [hxw]; exact hvw
        · exact htrans v w x hv (hP w (by simp)) (hP x (by simp [hxws]))
            hvw (hpw.1 x hxws)
      · rw [List.pairwise_cons]
        exact ⟨hpw.1, hpw.2⟩

theorem sortVisitsByDate_pairwise (R : Visit → Visit → Prop) (P : Visit → Prop)
    (bridge1 : ∀ w v, P w → P v → visitCompare w v ≤ 0 → R w v)
    (bridge2 : ∀ u v, P u → P v → 0 < visitCompare u v → R v u)
    (htrans : ∀ a b c, P a → P b → P c → R a b → R b c → R a c)
    (vs : List Visit) (hall : ∀ v ∈ vs, P v) :
    (sortVisitsByDate vs).Pairwise R := by
  suffices h : ∀ (l acc : List Visit), (∀ v ∈ l, P v) → (∀ w ∈ acc, P w) →
      acc.Pairwise R → (l.foldl (fun a v => insertVisit v a) acc).Pairwise R by
    exact h vs [] hall (by simp) (by simp)
  intro l
  induction l with
  | nil => intro acc _ _ h; simpa using h
  | cons v rest ih =>
    intro acc hl hacc hpw
    refine ih (insertVisit v acc) (fun u hu => hl u (by simp [hu])) ?_ ?_
    · intro w hw
      rcases mem_insertVisit hw with hwv | hwacc
      · rw [hwv]; exact hl v (by simp)
      · exact hacc w hwacc
    · exact insertVisit_pairwise R P bridge1 bridge2 htrans acc v hacc
        (hl v (by simp)) hpw

theorem cmp_le_sortedRel (w v : Visit) (h : visitCompare w v ≤ 0) :
    sortedRel w v := by
  constructor
  · intro hwn
    cases hv : v.visitTimestamp with
    | none => rfl
    | some tv =>
      simp only [visitCompare, hwn, hv] at h
      exact absurd h (by decide)
  · intro ta tb hta htb
    simp only [visitCompare, hta, htb] at h
    omega

theorem cmp_pos_sortedRel (u v : Visit) (h : 0 < visitCompare u v) :
    sortedRel v u := by
  constructor
  · intro hvn
    cases hu : u.visitTimestamp with
    | none => rfl
    | some tu =>
      simp only [visitCompare, hu, hvn] at h
      exact absurd h (by decide)
  · intro ta tb hta htb
    simp only [visitCompare, htb, hta] at h
    omega

theorem sortedRel_trans (a b c : Visit)
    (hab : sortedRel a b) (hbc : sortedRel b c) : sortedRel a c := by
  refine ⟨fun ha => hbc.1 (hab.1 ha), ?_⟩
  intro ta tc hta htc
  cases hb : b.visitTimestamp with
  | none =>
    have := hbc.1 hb
    rw [htc] at this
    exact absurd this (by simp)
  | some tb =>
    exact le_trans (hbc.2 tb tc hb htc) (hab.2 ta tb hta hb)

theorem parse_isSome_ne_empty {s : String}
    (h : (parseVisitDate s).isSome) : s ≠ "" := by
  intro he
  subst he
  simp [parseVisitDate, splitOnChar] at h

theorem cmp_le_dateRel (w v : Visit)
    (hw : w.visitTimestamp = none → (parseVisitDate w.visitDate).isSome)
    (hv : v.visitTimestamp = none → (parseVisitDate v.visitDate).isSome)
    (h : visitCompare w v ≤ 0) : dateRel w v := by
  intro dw dv hwn hvn hpw hpv
  have hne_w : w.visitDate ≠ "" := parse_isSome_ne_empty (hw hwn)
  have hne_v : v.visitDate ≠ "" := parse_isSome_ne_empty (hv hvn)
  simp only [visitCompare, hwn, hvn, if_pos (And.intro hne_w hne_v), hpw, hpv] at h
  omega

theorem cmp_pos_dateRel (u v : Visit)
    (hu : u.visitTimestamp = none → (parseVisitDate u.visitDate).isSome)
    (hv : v.visitTimestamp = none → (parseVisitDate v.visitDate).isSome)
    (h : 0 < visitCompare u v) : dateRel v u := by
  intro dv du hvn hun hpv hpu
  have hne_u : u.visitDate ≠ "" := parse_isSome_ne_empty (hu hun)
  have hne_v : v.visitDate ≠ "" := parse_isSome_ne_empty (hv hvn)
  simp only [visitCompare, hun, hvn, if_pos (And.intro hne_u hne_v), hpu, hpv] at h
  omega

theorem insertVisit_append (v : Visit) :
    ∀ (l : List Visit), (∀ w ∈ l, visitCompare w v ≤ 0) →
      insertVisit v l = l ++ [v] := by
  intro l
  induction l with
  | nil => intro _; rfl
  | cons w ws ih =>
    intro h
    unfold insertVisit
    rw [if_pos (h w (by simp)), ih (fun u hu => h u (by simp [hu]))]
    rfl

theorem cmp_zero_of_unparseable {w v : Visit}
    (hw : w.visitTimestamp = none) (hv : v.visitTimestamp = none)
    (hpw : parseVisitDate w.visitDate = none) : visitCompare w v = 0 := by
  simp only [visitCompare, hw, hv, hpw]
  split
  · rfl
  · rfl

theorem foldl_insertVisit_of_ties :
    ∀ (l acc : List Visit),
      (∀ v ∈ l, ∀ w ∈ acc, visitCompare w v ≤ 0) →
      (∀ v ∈ l, ∀ w ∈ l, visitCompare w v ≤ 0) →
      l.foldl (fun a v => insertVisit v a) acc = acc ++ l := by
  intro l
  induction l with
  | nil => intro acc _ _; simp
  | cons v rest ih =>
    intro acc hacc hl
    have h1 : insertVisit v acc = acc ++ [v] :=
      insertVisit_append v acc (hacc v (by simp))
    have h2 : rest.foldl (fun a v => insertVisit v a) (insertVisit v acc) =
        insertVisit v acc ++ rest := by
      refine ih (insertVisit v acc) ?_ ?_
      · intro x hx w hw
        rcases mem_insertVisit hw with hwv | hwacc
        · rw [hwv]; exact hl x (by simp [hx]) v (by simp)
        · exact hacc x (by simp [hx]) w hwacc
      · intro x hx w hw
        exact hl x (by simp [hx]) w (by simp [hw])
    rw [List.foldl_cons, h2, h1]
    simp

/-- **C3** (corrected): the claim fails as stated.  Among the timestamp-less
rows `[rowD1, rowU, rowD2]` the pair `(rowU, rowD2)` compares as a tie in both
directions (one side's date string does not parse — the claim's "otherwise"
case, which it says preserves the original relative order), yet the modeled
stable sort emits `rowD2` before `rowU`, inverting their original order.  (On
this input the claim's requirements are jointly unsatisfiable: it demands
`rowD2` before `rowD1` by parsed date, while tie-preservation demands `rowD1`
before `rowU` and `rowU` before `rowD2` — a cycle; the comparator is
inconsistent here, for which ES2019 leaves the sort order
implementation-defined.) -/
theorem c3_sort_counterexample :
    sortVisitsByDate [rowD1, rowU, rowD2] = [rowD2, rowD1, rowU] ∧
    visitCompare rowU rowD2 = 0 ∧ visitCompare rowD2 rowU = 0 ∧
    (parseVisitDate rowD1.visitDate).isSome ∧
    (parseVisitDate rowD2.visitDate).isSome ∧
    parseVisitDate rowU.visitDate = none := by decide

/-- **C3** (amended): the sort returns a permutation of its input in which
every row with a timestamp precedes every row without one and timestamps are
non-increasing (`sortedRel`); when all timestamp-less rows are tied (no
timestamp and an unparseable date string) the input order is returned
unchanged; and when every timestamp-less row has a parseable day/month/year
date string the timestamp-less rows additionally appear in non-increasing
parsed-date order (`dateRel`).  On mixed parseable/unparseable date strings
the comparator is inconsistent and the relative order among ties is not
preserved (see the counterexample). -/
theorem c3_sort (vs : List Visit) :
    (sortVisitsByDate vs).Perm vs ∧
    (sortVisitsByDate vs).Pairwise sortedRel ∧
    ((∀ v ∈ vs, v.visitTimestamp = none ∧ parseVisitDate v.visitDate = none) →
      sortVisitsByDate vs = vs) ∧
    ((∀ v ∈ vs, v.visitTimestamp = none → (parseVisitDate v.visitDate).isSome) →
      (sortVisitsByDate vs).Pairwise fun a b => sortedRel a b ∧ dateRel a b) := by
  refine ⟨?_, ?_, ?_, ?_⟩
  · have := foldl_insertVisit_perm vs []
    simpa [sortVisitsByDate] using this
  · exact sortVisitsByDate_pairwise sortedRel (fun _ => True)
      (fun w v _ _ h => cmp_le_sortedRel w v h)
      (fun u v _ _ h => cmp_pos_sortedRel u v h)
      (fun a b c _ _ _ hab hbc => sortedRel_trans a b c hab hbc)
      vs (fun _ _ => trivial)
  · intro h
    have hz : ∀ v ∈ vs, ∀ w ∈ vs, visitCompare w v ≤ 0 := by
      intro v hv w hw
      have := cmp_zero_of_unparseable (h w hw).1 (h v hv).1 (h w hw).2
      omega
    have := foldl_insertVisit_of_ties vs [] (by simp) hz
    simpa [sortVisitsByDate] using this
  · intro h
    refine sortVisitsByDate_pairwise _
      (fun v => v.visitTimestamp = none → (parseVisitDate v.visitDate).isSome)
      ?_ ?_ ?_ vs h
    · exact fun w v hw hv hc => ⟨cmp_le_sortedRel w v hc, cmp_le_dateRel w v hw hv hc⟩
    · exact fun u v hu hv hc => ⟨cmp_pos_sortedRel u v hc, cmp_pos_dateRel u v hu hv hc⟩
    · intro a b c ha hb hc hab hbc
      refine ⟨sortedRel_trans a b c hab.1 hbc.1, ?_⟩
      intro da dc han hcn hpa hpc
      have hbn : b.visitTimestamp = none := hab.1.1 han
      have hpb := hb hbn
      obtain ⟨db, hdb⟩ := Option.isSome_iff_exists.mp hpb
      exact le_trans (hbc.2 db dc hbn hcn hdb hpc) (hab.2 da db han hbn hpa hdb)

theorem c3_sort_witness :
    ((∀ v ∈ [rowU, rowU], v.visitTimestamp = none ∧
        parseVisitDate v.visitDate = none) ∧
      sortVisitsByDate [rowU, rowU] = [rowU, rowU]) ∧
    ((∀ v ∈ [rowD1, rowD2], v.visitTimestamp = none →
        (parseVisitDate v.visitDate).isSome) ∧
      (sortVisitsByDate [rowD1, rowD2]).Pairwise fun a b => sortedRel a b ∧ dateRel a b) :=
  ⟨⟨by decide, (c3_sort [rowU, rowU]).2.2.1 (by decide)⟩,
   ⟨by decide, (c3_sort [rowD1, rowD2]).2.2.2 (by decide)⟩⟩

theorem gStep_abs (L : Nat) (gc : GChunk) (b : String)
    (hlen : gc.dHeaders.length = gc.dParts.length) :
    (gStep L gc b).abs = chunkStep L gc.abs b ∧
    (gStep L gc b).dHeaders.length = (gStep L gc b).dParts.length := by
  unfold gStep chunkStep GChunk.abs
  by_cases h : utf16Len ((gc.curHeader ++ sjoin gc.curPart) ++ b) > L
  · rw [if_pos h]
    simp only [if_pos h]
    refine ⟨?_, by simp [hlen]⟩
    simp only [ChunkState.mk.injEq]
    refine ⟨?_, ?_, trivial⟩
    · rw [List.zipWith_append _ _ _ _ _ hlen]
      simp [sjoin]
    · simp [sjoin, String.append_empty]
  · rw [if_neg h]
    simp only [if_neg h]
    refine ⟨?_, hlen⟩
    simp only [ChunkState.mk.injEq]
    exact ⟨trivial, by rw [sjoin_concat, String.append_assoc], trivial⟩

theorem gfold_abs (L : Nat) :
    ∀ (bs : List String) (gc : GChunk),
      gc.dHeaders.length = gc.dParts.length →
      (bs.foldl (gStep L) gc).abs = bs.foldl (chunkStep L) gc.abs ∧
      (bs.foldl (gStep L) gc).dHeaders.length =
        (bs.foldl (gStep L) gc).dParts.length := by
  intro bs
  induction bs with
  | nil => intro gc hlen; exact ⟨rfl, hlen⟩
  | cons b rest ih =>
    intro gc hlen
    have h1 := gStep_abs L gc b hlen
    have h2 := ih (gStep L gc b) h1.2
    simp only [List.foldl_cons]
    exact ⟨h2.1.trans (by rw [h1.1]), h2.2⟩

theorem gfold_struct (L : Nat) :
    ∀ (bs : List String) (gc : GChunk),
      ((bs.foldl (gStep L) gc).dParts.flatten ++ (bs.foldl (gStep L) gc).curPart =
        gc.dParts.flatten ++ gc.curPart ++ bs) ∧
      (∀ h ∈ (bs.foldl (gStep L) gc).dHeaders,
        h ∈ gc.dHeaders ∨ h = gc.curHeader ∨ ∃ k, h = chunkHeaderN k) ∧
      ((bs.foldl (gStep L) gc).curHeader = gc.curHeader ∨
        ∃ k, (bs.foldl (gStep L) gc).curHeader = chunkHeaderN k) := by
  intro bs
  induction bs with
  | nil =>
    intro gc
    exact ⟨by simp, fun h hh => Or.inl hh, Or.inl rfl⟩
  | cons b rest ih =>
    intro gc
    simp only [List.foldl_cons]
    obtain ⟨ihj, ihh, ihc⟩ := ih (gStep L gc b)
    unfold gStep at ihj ihh ihc ⊢
    by_cases h : utf16Len ((gc.curHeader ++ sjoin gc.curPart) ++ b) > L
    · rw [if_pos h] at ihj ihh ihc ⊢
      refine ⟨?_, ?_, ?_⟩
      · rw [ihj]
        simp
      · intro hd hhd
        rcases ihh hd hhd with hmem | hcur | hk
        · rcases List.mem_append.mp hmem with hmem' | hsing
          · exact Or.inl hmem'
          · exact Or.inr (Or.inl (by simpa using hsing))
        · exact Or.inr (Or.inr ⟨gc.k + 1, hcur⟩)
        · exact Or.inr (Or.inr hk)
      · rcases ihc with hcur | hk
        · exact Or.inr ⟨gc.k + 1, hcur⟩
        · exact Or.inr hk
    · rw [if_neg h] at ihj ihh ihc ⊢
      refine ⟨?_, ihh, ihc⟩
      · rw [ihj]
        simp

theorem chunkStep_cases (L : Nat) (st : ChunkState) (b : String) :
    (utf16Len (st.currentChunk ++ b) > L ∧
      chunkStep L st b = ⟨st.chunks ++ [st.currentChunk],
        chunkHeaderN (st.chunkNumber + 1) ++ b, st.chunkNumber + 1⟩) ∨
    (utf16Len (st.currentChunk ++ b) ≤ L ∧
      chunkStep L st b = ⟨st.chunks, st.currentChunk ++ b, st.chunkNumber⟩) := by
  by_cases h : utf16Len (st.currentChunk ++ b) > L
  · exact Or.inl ⟨h, by rw [chunkStep, if_pos h]⟩
  · exact Or.inr ⟨by omega, by rw [chunkStep, if_neg h]⟩

theorem chunkfold_budget (L : Nat) :
    ∀ (bs : List String) (st : ChunkState),
      (∀ k, k ≤ st.chunkNumber + bs.length → ∀ b ∈ bs,
        utf16Len (chunkHeaderN k) + utf16Len b ≤ L) →
      utf16Len st.currentChunk ≤ L →
      (∀ c ∈ st.chunks, utf16Len c ≤ L) →
      utf16Len (bs.foldl (chunkStep L) st).currentChunk ≤ L ∧
      ∀ c ∈ (bs.foldl (chunkStep L) st).chunks, utf16Len c ≤ L := by
  intro bs
  induction bs with
  | nil => intro st _ hcur hdone; exact ⟨hcur, hdone⟩
  | cons b rest ih =>
    intro st hb hcur hdone
    have hlc : (b :: rest).length = rest.length + 1 := rfl
    rw [List.foldl_cons]
    rcases chunkStep_cases L st b with ⟨h, he⟩ | ⟨h, he⟩
    · rw [he]
      refine ih _ ?_ ?_ ?_
      · intro k hk b' hb'
        have hk' : k ≤ (st.chunkNumber + 1) + rest.length := hk
        refine hb k ?_ b' (List.mem_cons_of_mem b hb')
        rw [hlc]
        omega
      · show utf16Len (chunkHeaderN (st.chunkNumber + 1) ++ b) ≤ L
        rw [utf16Len_append]
        refine hb (st.chunkNumber + 1) ?_ b (List.mem_cons_self b rest)
        rw [hlc]
        omega
      · intro c hc
        rcases List.mem_append.mp hc with hc' | hc'
        · exact hdone c hc'
        · rw [List.mem_singleton.mp hc']
          exact hcur
    · rw [he]
      refine ih _ ?_ h hdone
      intro k hk b' hb'
      have hk' : k ≤ st.chunkNumber + rest.length := hk
      refine hb k ?_ b' (List.mem_cons_of_mem b hb')
      rw [hlc]
      omega

/-- **C1** (corrected): the claim fails as stated — the 1500-unit budget is
not respected by every chunk.  A single row whose block alone exceeds the
budget forces the chunked path, and the second (final) chunk — the fresh
header plus that block plus the appended summary, none of which is
length-checked — exceeds 1500 units.  The block is still carried whole:
the oversized final chunk is literally the part-2 header, the entire row
block, and the summary, while the first chunk is the bare part-1 header. -/
theorem c1_chunking_counterexample :
    utf16Len (generateWhatsAppMessage "G" [bigVisitA]) > 1500 ∧
    (chunkVisits "G" [bigVisitA]).length = 2 ∧
    1500 < utf16Len ((chunkVisits "G" [bigVisitA]).getD 1 "") ∧
    (chunkVisits "G" [bigVisitA]).getD 0 "" = chunkHeader1 "G" ∧
    (chunkVisits "G" [bigVisitA]).getD 1 "" =
      chunkHeaderN 2 ++ chunkVisitText 1 bigVisitA ++ chunkSummary [bigVisitA] := by
  have hover : utf16Len (chunkHeader1 "G" ++ chunkVisitText 1 bigVisitA) > 1500 := by
    decide
  have hblk : 1500 < utf16Len (chunkVisitText 1 bigVisitA) := by decide
  have hst : (rowBlocks [bigVisitA]).foldl (chunkStep 1500)
      (⟨[], chunkHeader1 "G", 1⟩ : ChunkState) =
      ⟨[chunkHeader1 "G"], chunkHeaderN 2 ++ chunkVisitText 1 bigVisitA, 2⟩ := by
    rcases chunkStep_cases 1500 ⟨[], chunkHeader1 "G", 1⟩ (chunkVisitText 1 bigVisitA)
      with ⟨h, he⟩ | ⟨h, he⟩
    · rw [show rowBlocks [bigVisitA] = [chunkVisitText 1 bigVisitA] from rfl,
          List.foldl_cons, List.foldl_nil, he]
      rfl
    · have h' : utf16Len (chunkHeader1 "G" ++ chunkVisitText 1 bigVisitA) ≤ 1500 := h
      omega
  have hcv : chunkVisits "G" [bigVisitA] =
      [chunkHeader1 "G",
       chunkHeaderN 2 ++ chunkVisitText 1 bigVisitA ++ chunkSummary [bigVisitA]] := by
    simp only [chunkVisits, hst]
    rfl
  refine ⟨by decide, ?_, ?_, ?_, ?_⟩
  · rw [hcv]
    rfl
  · rw [hcv]
    show 1500 < utf16Len
      (chunkHeaderN 2 ++ chunkVisitText 1 bigVisitA ++ chunkSummary [bigVisitA])
    rw [utf16Len_append, utf16Len_append]
    omega
  · rw [hcv]
    rfl
  · rw [hcv]
    rfl

/-- **C1** (amended): row blocks are atomic and complete unconditionally —
for every row set, every chunk is a header (the part-1 header or a
part-number header) followed by the concatenation of a consecutive run of
row blocks, the final chunk also carries the trailing summary, and the runs
concatenate to the original block sequence exactly once each.  The budget
holds only in the qualified form the code guarantees: when the first header
fits and every row block fits the budget after any applicable continuation
header, every chunk except the final one is within 1500 units, and the
final chunk is within 1500 units plus the length of the appended summary. -/
theorem c1_chunking (g : String) (vs : List Visit) :
    (∃ (partsInit : List (List String)) (pLast : List String)
       (headersInit : List String) (hLast : String),
      chunkVisits g vs =
        List.zipWith (fun h p => h ++ sjoin p) headersInit partsInit ++
          [hLast ++ sjoin pLast ++ chunkSummary vs] ∧
      headersInit.length = partsInit.length ∧
      partsInit.flatten ++ pLast = rowBlocks vs ∧
      (∀ hd ∈ headersInit ++ [hLast],
        hd = chunkHeader1 g ∨ ∃ k, hd = chunkHeaderN k)) ∧
    (utf16Len (chunkHeader1 g) ≤ 1500 →
     (∀ k, k ≤ 1 + (rowBlocks vs).length → ∀ b ∈ rowBlocks vs,
        utf16Len (chunkHeaderN k) + utf16Len b ≤ 1500) →
     (∀ c ∈ (chunkVisits g vs).dropLast, utf16Len c ≤ 1500) ∧
     (∀ c ∈ chunkVisits g vs, utf16Len c ≤ 1500 + utf16Len (chunkSummary vs))) := by
  have habs0 : (GChunk.abs ⟨[], [], chunkHeader1 g, [], 1⟩) =
      (⟨[], chunkHeader1 g, 1⟩ : ChunkState) := by
    simp [GChunk.abs, sjoin]
  have hcomm := gfold_abs 1500 (rowBlocks vs) ⟨[], [], chunkHeader1 g, [], 1⟩ rfl
  rw [habs0] at hcomm
  obtain ⟨hj, hhds, hcur⟩ :=
    gfold_struct 1500 (rowBlocks vs) ⟨[], [], chunkHeader1 g, [], 1⟩
  set gc := (rowBlocks vs).foldl (gStep 1500) ⟨[], [], chunkHeader1 g, [], 1⟩ with hgc
  set st := (rowBlocks vs).foldl (chunkStep 1500) (⟨[], chunkHeader1 g, 1⟩ : ChunkState)
    with hst
  have hcv : chunkVisits g vs = st.chunks ++ [st.currentChunk ++ chunkSummary vs] := rfl
  constructor
  · refine ⟨gc.dParts, gc.curPart, gc.dHeaders, gc.curHeader, ?_, ?_, ?_, ?_⟩
    · rw [hcv]
      have hchunks : st.chunks =
          List.zipWith (fun h p => h ++ sjoin p) gc.dHeaders gc.dParts := by
        rw [← hcomm.1]
        rfl
      have hcurc : st.currentChunk = gc.curHeader ++ sjoin gc.curPart := by
        rw [← hcomm.1]
        rfl
      rw [hchunks, hcurc, String.append_assoc]
    · have h1 := hcomm.2
      have h2 : gc.abs.chunks.length =
          min gc.dHeaders.length gc.dParts.length := by
        simp [GChunk.abs]
      omega
    · simpa using hj
    · intro hd hhd
      rcases List.mem_append.mp hhd with hd' | hd'
      · rcases hhds hd hd' with hmem | hc1 | hk
        · simp at hmem
        · exact Or.inl hc1
        · exact Or.inr hk
      · simp at hd'
        rw [hd']
        rcases hcur with hc1 | hk
        · exact Or.inl hc1
        · exact Or.inr hk
  · intro hh1 hb
    have hbud := chunkfold_budget 1500 (rowBlocks vs) ⟨[], chunkHeader1 g, 1⟩
      (by simpa [Nat.add_comm] using hb) hh1 (by simp)
    rw [← hst] at hbud
    constructor
    · intro c hc
      rw [hcv, List.dropLast_concat] at hc
      exact hbud.2 c hc
    · intro c hc
      rw [hcv] at hc
      rcases List.mem_append.mp hc with hc' | hc'
      · exact le_trans (hbud.2 c hc') (by omega)
      · simp at hc'
        rw [hc', utf16Len_append]
        have := hbud.1
        omega

theorem c1_chunking_witness :
    (utf16Len (chunkHeader1 "G") ≤ 1500 ∧
      ∀ k, k ≤ 1 + (rowBlocks [plainVisit]).length → ∀ b ∈ rowBlocks [plainVisit],
        utf16Len (chunkHeaderN k) + utf16Len b ≤ 1500) ∧
    (∃ (partsInit : List (List String)) (pLast : List String)
       (headersInit : List String) (hLast : String),
      chunkVisits "G" [plainVisit] =
        List.zipWith (fun h p => h ++ sjoin p) headersInit partsInit ++
          [hLast ++ sjoin pLast ++ chunkSummary [plainVisit]] ∧
      headersInit.length = partsInit.length ∧
      partsInit.flatten ++ pLast = rowBlocks [plainVisit] ∧
      (∀ hd ∈ headersInit ++ [hLast],
        hd = chunkHeader1 "G" ∨ ∃ k, hd = chunkHeaderN k)) ∧
    ((∀ c ∈ (chunkVisits "G" [plainVisit]).dropLast, utf16Len c ≤ 1500) ∧
     (∀ c ∈ chunkVisits "G" [plainVisit],
        utf16Len c ≤ 1500 + utf16Len (chunkSummary [plainVisit]))) :=
  ⟨⟨by decide, by decide⟩, (c1_chunking "G" [plainVisit]).1,
   (c1_chunking "G" [plainVisit]).2 (by decide) (by decide)⟩

end VisitPortal
